import Mathlib

/-!
Verification of the message-dispatch and request-lifecycle core of
clangd's `ClangdLSPServer::MessageHandler` (ClangdLSPServer.cpp).

The C++ code is shallowly embedded: each dispatcher operation becomes a
pure Lean function from the relevant state to a new state together with
the observable effects (outbound wire frames, handler invocations,
fired cancelers, invoked reply callbacks, log lines).  Handlers,
cancelers and reply callbacks are identified by natural numbers;
invoking one is recorded as an event rather than executed.
-/

namespace Clangd

/-- A minimal model of `llvm::json::Value`, covering the shapes the
dispatcher inspects: integers (request IDs issued by the server),
strings, objects (for `$/cancelRequest` params), null and "anything
else". -/
inductive JValue where
  | num (n : Int)
  | str (s : String)
  | obj (fields : List (String × JValue))
  | null
  | other

/-- `llvm::json::Value::getAsInteger`: yields the value when it is an
integer, `none` otherwise. -/
def JValue.getAsInteger : JValue → Option Int
  | .num n => some n
  | _ => none

/-- `llvm::json::Object::get`: look up a field by key (first match). -/
def jsonObjGet : List (String × JValue) → String → Option JValue
  | [], _ => none
  | (k, v) :: rest, key => if k = key then some v else jsonObjGet rest key

mutual
/-- `llvm::to_string` on a `json::Value`: serialization used to build
the cancellation-map key.  Only determinism matters for the dispatcher
(the same ID always maps to the same key). -/
def jsonToString : JValue → String
  | .num n => toString n
  | .str s => "\x22" ++ s ++ "\x22"
  | .obj fs => "\x7b" ++ jsonFieldsToString fs ++ "\x7d"
  | .null => "null"
  | .other => "?"

/-- Serialize an object's field list, comma-separated. -/
def jsonFieldsToString : List (String × JValue) → String
  | [] => ""
  | [(k, v)] => "\x22" ++ k ++ "\x22:" ++ jsonToString v
  | (k, v) :: rest =>
      "\x22" ++ k ++ "\x22:" ++ jsonToString v ++ "," ++ jsonFieldsToString rest
end

/-- The LSP/JSON-RPC error codes used by the dispatcher
(Protocol.h `ErrorCode`). -/
inductive ErrorCode where
  | parseError
  | invalidRequest
  | methodNotFound
  | invalidParams
  | internalError
  | serverNotInitialized
  | requestCancelled
  | contentModified
deriving DecidableEq, Repr

/-- The integer value of each error code on the wire. -/
def ErrorCode.toInt : ErrorCode → Int
  | .parseError => -32700
  | .invalidRequest => -32600
  | .methodNotFound => -32601
  | .invalidParams => -32602
  | .internalError => -32603
  | .serverNotInitialized => -32002
  | .requestCancelled => -32800
  | .contentModified => -32801

/-- `LSPError`: an error message paired with an `ErrorCode`. -/
structure LSPError where
  message : String
  code : ErrorCode
deriving DecidableEq, Repr

/-- A reply payload: `llvm::Expected<llvm::json::Value>`, either a
result value or an `LSPError`. -/
abbrev ReplyPayload := Except LSPError JValue

/-- One outbound wire frame written through `Transport` under the
writer lock (`Transp.reply`). -/
inductive OutFrame where
  | replyOk (id : JValue) (result : JValue)
  | replyErr (id : JValue) (err : LSPError)

/-- The request ID a reply frame carries. -/
def OutFrame.id : OutFrame → JValue
  | .replyOk i _ => i
  | .replyErr i _ => i

/-! ## Reply-Once handle (`ClangdLSPServer::MessageHandler::ReplyOnce`) -/

/-- The state of one `ReplyOnce` handle: the single-shot `Replied`
flag, the call's ID and method, and whether the back-pointer `Server`
is still set (it is nulled when the handle is moved-from). -/
structure ReplyOnce where
  replied : Bool
  id : JValue
  method : String
  serverAlive : Bool

/-- Construct a fresh handle for an inbound call
(`ReplyOnce::ReplyOnce`): flag clear, server pointer set. -/
def ReplyOnce.mk' (id : JValue) (method : String) : ReplyOnce :=
  { replied := false, id := id, method := method, serverAlive := true }

/-- `ReplyOnce::operator()`: `Replied.exchange(true)`; if the flag was
already set, log "Replied twice" and write nothing; otherwise write
exactly one reply frame (result or error) through the transport.
Returns the updated handle, the frames written, and the log lines. -/
def ReplyOnce.call (r : ReplyOnce) (reply : ReplyPayload) :
    ReplyOnce × List OutFrame × List String :=
  if r.replied then
    (r, [], ["Replied twice to message " ++ r.method])
  else
    match reply with
    | .ok v =>
        ({ r with replied := true }, [.replyOk r.id v],
         ["--> reply:" ++ r.method])
    | .error e =>
        ({ r with replied := true }, [.replyErr r.id e],
         ["--> reply error:" ++ r.method])

/-- `ReplyOnce::~ReplyOnce`: if the handle was not moved-from, the
endpoint is not being destroyed, and no reply was sent, log "No reply"
and send a synthetic `InternalError("server failed to reply")` through
`operator()`; otherwise write nothing.  Returns the frames written and
the log lines. -/
def ReplyOnce.destroy (r : ReplyOnce) (isBeingDestroyed : Bool) :
    List OutFrame × List String :=
  if r.serverAlive && !isBeingDestroyed && !r.replied then
    let (_, frames, logs) :=
      r.call (.error ⟨"server failed to reply", .internalError⟩)
    (frames, ("No reply to message " ++ r.method) :: logs)
  else
    ([], [])

/-- Frames of a `ReplyOnce.call` result. -/
def ReplyOnce.callFrames (r : ReplyOnce) (reply : ReplyPayload) : List OutFrame :=
  (r.call reply).2.1

/-- Logs of a `ReplyOnce.call` result. -/
def ReplyOnce.callLogs (r : ReplyOnce) (reply : ReplyPayload) : List String :=
  (r.call reply).2.2

/-- Handle state after a `ReplyOnce.call`. -/
def ReplyOnce.afterCall (r : ReplyOnce) (reply : ReplyPayload) : ReplyOnce :=
  (r.call reply).1

/-! ## Cancellation registry
(`RequestCancelers` / `onCancel` / `cancelableRequestContext`) -/

/-- `llvm::StringMap` of cancel entries: key is the stringified
inbound ID, value is `(canceler id, cookie)`.  Modeled as an
association list with at most one binding per key; `insert`
overwrites. -/
abbrev CancelMap := List (String × (Nat × Nat))

/-- `StringMap::operator[] = v`: overwrite the binding for `k`, or
append a fresh one. -/
def mapInsert : CancelMap → String → Nat × Nat → CancelMap
  | [], k, v => [(k, v)]
  | (k', v') :: rest, k, v =>
      if k' = k then (k, v) :: rest else (k', v') :: mapInsert rest k v

/-- `StringMap::find`: the binding for `k`, if any. -/
def mapFind : CancelMap → String → Option (Nat × Nat)
  | [], _ => none
  | (k', v') :: rest, k => if k' = k then some v' else mapFind rest k

/-- `StringMap::erase` of the binding for `k`. -/
def mapErase : CancelMap → String → CancelMap
  | [], _ => []
  | (k', v') :: rest, k =>
      if k' = k then rest else (k', v') :: mapErase rest k

/-- The cancellation registry: the `RequestCancelers` map plus the
`NextRequestCookie` counter. -/
structure CancelRegistry where
  cancelers : CancelMap
  nextCookie : Nat

/-- The registration half of `cancelableRequestContext`: stringify the
ID, allocate a fresh cookie, and insert `(canceler, cookie)` at the ID
key, overwriting any existing entry.  Returns the updated registry and
the cookie recorded for this call's cleanup. -/
def registerCancelable (reg : CancelRegistry) (id : JValue) (canceler : Nat) :
    CancelRegistry × Nat :=
  let strID := jsonToString id
  let cookie := reg.nextCookie
  ({ cancelers := mapInsert reg.cancelers strID (canceler, cookie),
     nextCookie := cookie + 1 }, cookie)

/-- The scope-exit half of `cancelableRequestContext`: when the
request's context dies, erase the entry at the ID key only if its
stored cookie still equals the one recorded at registration. -/
def cleanupCancelable (reg : CancelRegistry) (id : JValue) (cookie : Nat) :
    CancelRegistry :=
  let strID := jsonToString id
  match mapFind reg.cancelers strID with
  | some (_, c) =>
      if c = cookie then
        { reg with cancelers := mapErase reg.cancelers strID }
      else reg
  | none => reg

/-- The ID extraction at the top of `MessageHandler::onCancel`:
`Params.getAsObject()` followed by `O->get("id")`; `none` when the
params are not an object or carry no `id` field. -/
def cancelParamsId (params : JValue) : Option JValue :=
  match params with
  | .obj fields => jsonObjGet fields "id"
  | _ => none

/-- `MessageHandler::onCancel`: extract the `id` field of the params
object; if absent, log a bad cancellation request and return;
otherwise look the stringified ID up and fire the canceler when an
entry exists.  Returns the (never modified) registry, the list of
fired canceler ids, and the log lines. -/
def onCancel (reg : CancelRegistry) (params : JValue) :
    CancelRegistry × List Nat × List String :=
  match cancelParamsId params with
  | none => (reg, [], ["Bad cancellation request"])
  | some id =>
      let strID := jsonToString id
      match mapFind reg.cancelers strID with
      | some (canceler, _) => (reg, [canceler], [])
      | none => (reg, [], [])

/-! ## Outbound call registry (`ReplyCallbacks` / `bindReply` / `onReply`) -/

/-- `MaxReplayCallbacks`: the bound on the number of outstanding
outbound calls. -/
def MaxReplayCallbacks : Nat := 100

/-- The outbound call registry: `NextCallID` and the `ReplyCallbacks`
deque of `(request id, reply callback id)`, present head-first. -/
structure OutboundRegistry where
  nextCallID : Int
  replyCallbacks : List (Int × Nat)

/-- An invocation of a stored reply callback, recorded rather than
executed: either with an error message or with the reply payload
received from the client. -/
inductive CBInvocation where
  | withError (cb : Nat) (msg : String)
  | withPayload (cb : Nat) (payload : Except String JValue)

/-- `MessageHandler::bindReply`: allocate `ID = NextCallID++`, append
`(ID, callback)` at the tail; if the deque now holds more than
`MaxReplayCallbacks` entries, pop the head and (outside the lock)
invoke the evicted callback with the "failed to receive a client
reply" error.  Returns the updated registry, the allocated ID, and the
callback invocations performed. -/
def bindReply (reg : OutboundRegistry) (cb : Nat) :
    OutboundRegistry × Int × List CBInvocation :=
  let id := reg.nextCallID
  let rcs := reg.replyCallbacks ++ [(id, cb)]
  if rcs.length > MaxReplayCallbacks then
    match rcs with
    | [] => ({ nextCallID := id + 1, replyCallbacks := [] }, id, [])
    | oldest :: rest =>
        ({ nextCallID := id + 1, replyCallbacks := rest }, id,
         [.withError oldest.2
            ("failed to receive a client reply for request (" ++
             toString oldest.1 ++ ")")])
  else
    ({ nextCallID := id + 1, replyCallbacks := rcs }, id, [])

/-- The scan loop of `MessageHandler::onReply`: walk the deque from
the head, remove the first entry whose id matches, and return its
callback together with the remaining deque; `none` when no entry
matches. -/
def scanRemove : List (Int × Nat) → Int → Option (Nat × List (Int × Nat))
  | [], _ => none
  | (i, cb) :: rest, target =>
      if i = target then some (cb, rest)
      else
        match scanRemove rest target with
        | some (cb', rest') => some (cb', (i, cb) :: rest')
        | none => none

/-- `MessageHandler::onReply`: if the envelope's ID is an integer and
a matching entry exists, remove it and invoke its stored callback with
the result-or-error; otherwise fall back to the default handler, which
only logs that no such call exists.  Returns the updated registry, the
stored-callback invocations, and the log lines. -/
def onReply (reg : OutboundRegistry) (id : JValue)
    (result : Except String JValue) :
    OutboundRegistry × List CBInvocation × List String :=
  let claimed : Option (Nat × List (Int × Nat)) :=
    match id.getAsInteger with
    | some intID => scanRemove reg.replyCallbacks intID
    | none => none
  match claimed with
  | some (cb, rest) =>
      ({ reg with replyCallbacks := rest }, [.withPayload cb result],
       ["<-- reply"])
  | none =>
      (reg, [],
       ["<-- reply", "received a reply with ID, but there was no such call"])

/-! ## Dispatcher (`onNotify` / `onCall`) -/

/-- Result of dispatching one inbound notification. -/
structure NotifyResult where
  keepRunning : Bool
  invokedHandlers : List Nat
  firedCancelers : List Nat
  logs : List String

/-- `MessageHandler::onNotify`: `exit` stops the transport loop; any
other notification before initialization is logged and dropped;
`$/cancelRequest` is delegated to `onCancel`; otherwise the
notification handler table decides (absent method logged and dropped,
present handler invoked). -/
def onNotify (initialized : Bool) (notifs : String → Option Nat)
    (cancelReg : CancelRegistry) (method : String) (params : JValue) :
    NotifyResult :=
  if method = "exit" then
    ⟨false, [], [], []⟩
  else if !initialized then
    ⟨true, [], [], ["Notification before initialization"]⟩
  else if method = "$/cancelRequest" then
    let (_, fired, logs) := onCancel cancelReg params
    ⟨true, [], fired, logs⟩
  else
    match notifs method with
    | some h => ⟨true, [h], [], []⟩
    | none => ⟨true, [], [], ["unhandled notification"]⟩

/-- Result of dispatching one inbound call. -/
structure CallResult where
  cancelReg : CancelRegistry
  cookie : Nat
  invokedHandlers : List (Nat × ReplyOnce)
  frames : List OutFrame
  logs : List String

/-- `MessageHandler::onCall`: register a cancelable-request context
for the ID, construct a fresh Reply-Once handle, then dispatch: before
initialization any method other than `initialize` is answered with
`ServerNotInitialized` and no handler runs; otherwise the call handler
table decides (present handler invoked with the handle, absent method
answered with `MethodNotFound`). -/
def onCall (initialized : Bool) (calls : String → Option Nat)
    (cancelReg : CancelRegistry) (canceler : Nat)
    (method : String) (id : JValue) : CallResult :=
  let (reg', cookie) := registerCancelable cancelReg id canceler
  let reply := ReplyOnce.mk' id method
  if !initialized && method ≠ "initialize" then
    { cancelReg := reg', cookie := cookie, invokedHandlers := [],
      frames :=
        reply.callFrames (.error ⟨"server not initialized",
                                  .serverNotInitialized⟩),
      logs := "Call before initialization" ::
        reply.callLogs (.error ⟨"server not initialized",
                                .serverNotInitialized⟩) }
  else
    match calls method with
    | some h =>
        { cancelReg := reg', cookie := cookie,
          invokedHandlers := [(h, reply)], frames := [], logs := [] }
    | none =>
        { cancelReg := reg', cookie := cookie, invokedHandlers := [],
          frames :=
            reply.callFrames (.error ⟨"method not found", .methodNotFound⟩),
          logs :=
            reply.callLogs (.error ⟨"method not found", .methodNotFound⟩) }

/-! ## Typed handler binding (`MessageHandler::bind`) -/

/-- The call-binding wrapper built by `bind(Method, Handler)` for a
call: decode the raw params with `fromJSON`; on success run the
handler body with the decoded params and the Reply-Once handle; on
failure log and invoke the handle with
`InvalidRequest("failed to decode request")`, never running the body.
The body's effect is the `ok` branch; the `error` branch carries the
frames and log lines emitted on decode failure. -/
def boundCallHandler {P A : Type} (decode : JValue → Option P)
    (body : P → ReplyOnce → A) (raw : JValue) (reply : ReplyOnce) :
    Except (List OutFrame × List String) A :=
  match decode raw with
  | some p => .ok (body p reply)
  | none =>
      .error
        (reply.callFrames (.error ⟨"failed to decode request",
                                   .invalidRequest⟩),
         "Failed to decode request" ::
           reply.callLogs (.error ⟨"failed to decode request",
                                   .invalidRequest⟩))

/-- The notification-binding wrapper built by `bind(Method, Handler)`
for a notification: decode the raw params; on failure log and return
without running the body. -/
def boundNotifHandler {P A : Type} (decode : JValue → Option P)
    (body : P → A) (raw : JValue) : Except (List String) A :=
  match decode raw with
  | some p => .ok (body p)
  | none => .error ["Failed to decode request"]

/-! ## `ClangdLSPServer::onInitialize` -/

/-- LSP offset encodings (`OffsetEncoding`). -/
inductive OffsetEncoding where
  | utf8
  | utf16
  | utf32
  | unsupportedEncoding
deriving DecidableEq, Repr

/-- The negotiation loop of `onInitialize`: fall back to UTF-16, then
take the first client-offered encoding that is supported. -/
def firstSupported : List OffsetEncoding → OffsetEncoding
  | [] => .utf16
  | e :: rest => if e = .unsupportedEncoding then firstSupported rest else e

/-- The fields of `InitializeParams` that `onInitialize` reads before
and around the already-initialized check. -/
structure InitializeParams where
  offsetEncoding : Option (List OffsetEncoding)
  semanticHighlighting : Bool
  rootUri : Option String
  rootPath : Option String
  compilationDatabasePath : Option String

/-- The `ClangdLSPServer` state that `onInitialize` manipulates:
negotiated encoding, workspace root, compile-commands dir, whether the
`ClangdServer` optional is emplaced, and construction counters for the
compilation database and the server (each `emplace` bumps one). -/
structure ServerState where
  negotiatedOffsetEncoding : Option OffsetEncoding
  semanticHighlighting : Bool
  workspaceRoot : Option String
  compileCommandsDir : Option String
  serverPresent : Bool
  cdbGeneration : Nat
  serverGeneration : Nat

/-- The updates `onInitialize` performs before the already-initialized
check: negotiate the offset encoding (once), record the semantic
highlighting capability, and pick the workspace root from `rootUri`
(when valid) or `rootPath` (when non-empty). -/
def recordInitOptions (s : ServerState) (p : InitializeParams) : ServerState :=
  let s :=
    match p.offsetEncoding, s.negotiatedOffsetEncoding with
    | some offered, none =>
        { s with negotiatedOffsetEncoding := some (firstSupported offered) }
    | _, _ => s
  let s := { s with semanticHighlighting := p.semanticHighlighting }
  match p.rootUri with
  | some u =>
      if u ≠ "" then { s with workspaceRoot := some u }
      else
        match p.rootPath with
        | some pa => if pa ≠ "" then { s with workspaceRoot := some pa } else s
        | none => s
  | none =>
      match p.rootPath with
      | some pa => if pa ≠ "" then { s with workspaceRoot := some pa } else s
      | none => s

/-- `ClangdLSPServer::onInitialize`: record the negotiated options,
then — if the server was already constructed — reply
`InvalidRequest("server already initialized")` without touching the
compilation database or the `ClangdServer`; otherwise construct both
and reply with the capabilities (modeled as `.ok ()`). -/
def onInitialize (s : ServerState) (p : InitializeParams) :
    ServerState × Except LSPError Unit :=
  let s := recordInitOptions s p
  if s.serverPresent then
    (s, .error ⟨"server already initialized", .invalidRequest⟩)
  else
    let s :=
      match p.compilationDatabasePath with
      | some d => { s with compileCommandsDir := some d }
      | none => s
    let s := { s with cdbGeneration := s.cdbGeneration + 1 }
    let s := { s with serverPresent := true,
                      serverGeneration := s.serverGeneration + 1 }
    (s, .ok ())

/-- Iterate `ReplyOnce.call` over a list of payloads, collecting every
frame written: the shape of a handler that (buggily) replies several
times to the same call. -/
def ReplyOnce.callMany (r : ReplyOnce) : List ReplyPayload → ReplyOnce × List OutFrame
  | [] => (r, [])
  | p :: ps =>
      let (r1, frames, _) := r.call p
      let (r2, rest) := r1.callMany ps
      (r2, frames ++ rest)

/-! ## Theorems -/

/-- Invoking a handle whose `Replied` flag is already set logs
"Replied twice" and leaves the handle and the wire untouched. -/
theorem call_of_replied (r : ReplyOnce) (h : r.replied = true)
    (p : ReplyPayload) :
    r.call p = (r, [], ["Replied twice to message " ++ r.method]) := by
  simp [ReplyOnce.call, h]

/-- A handle whose flag is set writes no frame no matter how many
more times it is invoked. -/
theorem callMany_of_replied (r : ReplyOnce) (h : r.replied = true) :
    ∀ ps : List ReplyPayload, r.callMany ps = (r, []) := by
  intro ps
  induction ps with
  | nil => rfl
  | cons p ps ih =>
      simp [ReplyOnce.callMany, call_of_replied r h, ih]

/-- C1: for every inbound call, the Reply-Once handle emits exactly
one reply frame: the first invocation sets the `Replied` flag and
writes one frame carrying the call's ID; any run of further
invocations writes nothing, and each such invocation logs "Replied
twice". -/
theorem replyOnce_single_reply_frame (id : JValue) (method : String)
    (x : ReplyPayload) (rest : List ReplyPayload) :
    ((ReplyOnce.mk' id method).callMany (x :: rest)).2.length = 1 ∧
    (∀ f ∈ ((ReplyOnce.mk' id method).callMany (x :: rest)).2,
       f.id = id) ∧
    ((ReplyOnce.mk' id method).afterCall x).replied = true ∧
    (∀ y, ((ReplyOnce.mk' id method).afterCall x).call y =
       ((ReplyOnce.mk' id method).afterCall x, [],
        ["Replied twice to message " ++ method])) := by
  cases x with
  | ok v =>
      refine ⟨?_, ?_, ?_, ?_⟩ <;>
        simp [ReplyOnce.callMany, ReplyOnce.call, ReplyOnce.mk',
              ReplyOnce.afterCall, callMany_of_replied, OutFrame.id]
  | error e =>
      refine ⟨?_, ?_, ?_, ?_⟩ <;>
        simp [ReplyOnce.callMany, ReplyOnce.call, ReplyOnce.mk',
              ReplyOnce.afterCall, callMany_of_replied, OutFrame.id]

/-- Witness for C1: a double reply to call id 9 leaves exactly one
frame on the wire and the second invocation only logs. -/
theorem replyOnce_single_reply_frame_witness :
    ((ReplyOnce.mk' (.num 9) "m").callMany
        [.ok .null, .ok .null]).2.length = 1 ∧
    ((ReplyOnce.mk' (.num 9) "m").afterCall (.ok .null)).call (.ok .null) =
      ((ReplyOnce.mk' (.num 9) "m").afterCall (.ok .null), [],
       ["Replied twice to message " ++ "m"]) :=
  ⟨(replyOnce_single_reply_frame (.num 9) "m" (.ok .null) [.ok .null]).1,
   (replyOnce_single_reply_frame (.num 9) "m" (.ok .null)
      [.ok .null]).2.2.2 (.ok .null)⟩

/-- C2: destroying a never-invoked, never-moved handle while the
endpoint is alive writes the synthetic
`InternalError("server failed to reply")` frame for the call's ID;
during endpoint teardown destruction writes nothing. -/
theorem replyOnce_destroy_spec (r : ReplyOnce)
    (hrep : r.replied = false) (halive : r.serverAlive = true) :
    r.destroy false =
      ([.replyErr r.id ⟨"server failed to reply", .internalError⟩],
       ["No reply to message " ++ r.method,
        "--> reply error:" ++ r.method]) ∧
    r.destroy true = ([], []) := by
  constructor
  · simp [ReplyOnce.destroy, hrep, halive, ReplyOnce.call]
  · simp [ReplyOnce.destroy]

/-- Witness for C2 at a concrete fresh handle for call id 7. -/
theorem replyOnce_destroy_spec_witness :
    (ReplyOnce.mk' (.num 7) "test/drop").destroy false =
      ([.replyErr (.num 7) ⟨"server failed to reply", .internalError⟩],
       ["No reply to message " ++ "test/drop",
        "--> reply error:" ++ "test/drop"]) ∧
    (ReplyOnce.mk' (.num 7) "test/drop").destroy true = ([], []) :=
  replyOnce_destroy_spec (ReplyOnce.mk' (.num 7) "test/drop") rfl rfl

/-- C3: an inbound call whose method is not `initialize`, arriving
before initialization completed, is answered with
`ServerNotInitialized` (code -32002, message "server not
initialized") and invokes no registered handler; more generally, any
handler invoked before initialization belongs to `initialize`. -/
theorem onCall_init_gate (calls : String → Option Nat)
    (cancelReg : CancelRegistry) (canceler : Nat)
    (method : String) (id : JValue) (h : method ≠ "initialize") :
    (onCall false calls cancelReg canceler method id).invokedHandlers = [] ∧
    (onCall false calls cancelReg canceler method id).frames =
      [.replyErr id ⟨"server not initialized", .serverNotInitialized⟩] ∧
    ErrorCode.serverNotInitialized.toInt = -32002 ∧
    (∀ m hh rp,
       (hh, rp) ∈ (onCall false calls cancelReg canceler m id).invokedHandlers →
       m = "initialize") := by
  refine ⟨?_, ?_, rfl, ?_⟩
  · simp [onCall, h]
  · simp [onCall, h, ReplyOnce.callFrames, ReplyOnce.call, ReplyOnce.mk']
  · intro m hh rp hmem
    by_cases hm : m = "initialize"
    · exact hm
    · simp [onCall, hm] at hmem

/-- Witness for C3: a `textDocument/hover` call before `initialize`,
with a handler registered for every method, still reaches no handler
and gets the `ServerNotInitialized` reply. -/
theorem onCall_init_gate_witness :
    (onCall false (fun _ => some 3) ⟨[], 0⟩ 0 "textDocument/hover"
        (.num 1)).invokedHandlers = [] ∧
    (onCall false (fun _ => some 3) ⟨[], 0⟩ 0 "textDocument/hover"
        (.num 1)).frames =
      [.replyErr (.num 1)
         ⟨"server not initialized", .serverNotInitialized⟩] :=
  ⟨(onCall_init_gate (fun _ => some 3) ⟨[], 0⟩ 0 "textDocument/hover"
      (.num 1) (by decide)).1,
   (onCall_init_gate (fun _ => some 3) ⟨[], 0⟩ 0 "textDocument/hover"
      (.num 1) (by decide)).2.1⟩

/-- C7: notification dispatch order: `exit` stops the loop; any other
notification before initialization is logged and dropped;
`$/cancelRequest` is delegated to the cancellation registry; otherwise
a registered handler is invoked and an absent method is logged and
dropped. -/
theorem onNotify_dispatch (initialized : Bool)
    (notifs : String → Option Nat) (reg : CancelRegistry)
    (method : String) (params : JValue) :
    (onNotify initialized notifs reg "exit" params = ⟨false, [], [], []⟩) ∧
    (method ≠ "exit" →
       onNotify false notifs reg method params =
         ⟨true, [], [], ["Notification before initialization"]⟩) ∧
    (onNotify true notifs reg "$/cancelRequest" params =
       ⟨true, [], (onCancel reg params).2.1, (onCancel reg params).2.2⟩) ∧
    (method ≠ "exit" → method ≠ "$/cancelRequest" →
       ∀ hh, notifs method = some hh →
       onNotify true notifs reg method params = ⟨true, [hh], [], []⟩) ∧
    (method ≠ "exit" → method ≠ "$/cancelRequest" →
       notifs method = none →
       onNotify true notifs reg method params =
         ⟨true, [], [], ["unhandled notification"]⟩) := by
  refine ⟨?_, ?_, ?_, ?_, ?_⟩
  · simp [onNotify]
  · intro h1
    simp [onNotify, h1]
  · simp only [onNotify]
    cases honc : onCancel reg params with
    | mk a bc =>
        cases bc with
        | mk b c => simp [honc]
  · intro h1 h2 hh h3
    simp [onNotify, h1, h2, h3]
  · intro h1 h2 h3
    simp [onNotify, h1, h2, h3]

/-- Witness for C7: a notification dropped before initialization, a
registered handler invoked after initialization, and an unknown method
logged and dropped. -/
theorem onNotify_dispatch_witness :
    onNotify false (fun _ => none) ⟨[], 0⟩ "textDocument/didOpen" .null =
      ⟨true, [], [], ["Notification before initialization"]⟩ ∧
    onNotify true (fun m => if m = "textDocument/didOpen" then some 4 else none)
        ⟨[], 0⟩ "textDocument/didOpen" .null = ⟨true, [4], [], []⟩ ∧
    onNotify true (fun _ => none) ⟨[], 0⟩ "no/such" .null =
      ⟨true, [], [], ["unhandled notification"]⟩ :=
  ⟨(onNotify_dispatch false (fun _ => none) ⟨[], 0⟩ "textDocument/didOpen"
      .null).2.1 (by decide),
   (onNotify_dispatch true
      (fun m => if m = "textDocument/didOpen" then some 4 else none)
      ⟨[], 0⟩ "textDocument/didOpen" .null).2.2.2.1 (by decide) (by decide)
      4 (by simp),
   (onNotify_dispatch true (fun _ => none) ⟨[], 0⟩ "no/such"
      .null).2.2.2.2 (by decide) (by decide) rfl⟩

/-- Inserting at a key makes that key's binding the inserted value. -/
theorem mapFind_mapInsert (m : CancelMap) (k : String) (v : Nat × Nat) :
    mapFind (mapInsert m k v) k = some v := by
  induction m with
  | nil => simp [mapInsert, mapFind]
  | cons head rest ih =>
      obtain ⟨k', v'⟩ := head
      by_cases h : k' = k <;> simp [mapInsert, mapFind, h, ih]

/-- C4: registering a second call under the same ID overwrites the
earlier cancellation entry; `$/cancelRequest` for that ID then fires
only the later canceler; cleanup with the earlier cookie leaves the
registry untouched (the cookies differ). -/
theorem cancel_id_reuse (reg reg1 reg2 : CancelRegistry) (id : JValue)
    (c1 c2 cookie1 cookie2 : Nat)
    (h1 : registerCancelable reg id c1 = (reg1, cookie1))
    (h2 : registerCancelable reg1 id c2 = (reg2, cookie2)) :
    mapFind reg2.cancelers (jsonToString id) = some (c2, cookie2) ∧
    (onCancel reg2 (.obj [("id", id)])).2.1 = [c2] ∧
    cookie1 ≠ cookie2 ∧
    cleanupCancelable reg2 id cookie1 = reg2 := by
  simp only [registerCancelable, Prod.mk.injEq] at h1 h2
  obtain ⟨hr1, hc1⟩ := h1
  obtain ⟨hr2, hc2⟩ := h2
  subst hr1 hc1 hr2 hc2
  dsimp only
  refine ⟨mapFind_mapInsert _ _ _, ?_, ?_, ?_⟩
  · simp [onCancel, cancelParamsId, jsonObjGet, mapFind_mapInsert]
  · omega
  · simp only [cleanupCancelable, mapFind_mapInsert]
    rw [if_neg (by omega)]

/-- Witness for C4: two registrations under id 5, then a cancel and a
stale cleanup, on a concrete registry. -/
theorem cancel_id_reuse_witness :
    mapFind (CancelRegistry.cancelers ⟨[("5", (2, 1))], 2⟩) (jsonToString (.num 5)) =
      some (2, 1) ∧
    (onCancel ⟨[("5", (2, 1))], 2⟩ (.obj [("id", .num 5)])).2.1 = [2] ∧
    (0 : Nat) ≠ 1 ∧
    cleanupCancelable ⟨[("5", (2, 1))], 2⟩ (.num 5) 0 = ⟨[("5", (2, 1))], 2⟩ :=
  cancel_id_reuse ⟨[], 0⟩ ⟨[("5", (1, 0))], 1⟩ ⟨[("5", (2, 1))], 2⟩
    (.num 5) 1 2 0 1 rfl rfl

/-- C10: a `$/cancelRequest` whose params are not an object with an
`id` field is logged as a bad cancellation request and dropped: no
canceler fires and the registry is unchanged. -/
theorem onCancel_bad_params (reg : CancelRegistry) (params : JValue)
    (h : cancelParamsId params = none) :
    onCancel reg params = (reg, [], ["Bad cancellation request"]) := by
  simp [onCancel, h]

/-- Witness for C10: a string payload (not an object) against a
non-empty registry. -/
theorem onCancel_bad_params_witness :
    onCancel ⟨[("5", (1, 0))], 1⟩ (.str "x") =
      (⟨[("5", (1, 0))], 1⟩, [], ["Bad cancellation request"]) :=
  onCancel_bad_params ⟨[("5", (1, 0))], 1⟩ (.str "x") rfl

/-- `bindReply` without overflow: append at the tail, no eviction. -/
theorem bindReply_no_evict (nid : Int) (l : List (Int × Nat)) (cb : Nat)
    (h : l.length < MaxReplayCallbacks) :
    bindReply ⟨nid, l⟩ cb = (⟨nid + 1, l ++ [(nid, cb)]⟩, nid, []) := by
  have hc : ¬((l ++ [(nid, cb)]).length > MaxReplayCallbacks) := by
    simp only [List.length_append, List.length_cons, List.length_nil,
               MaxReplayCallbacks] at h ⊢
    omega
  simp only [bindReply]
  rw [if_neg hc]

/-- `bindReply` at capacity: append at the tail, evict the head and
invoke its callback with the no-client-reply error. -/
theorem bindReply_evict (nid : Int) (o : Int × Nat)
    (t : List (Int × Nat)) (cb : Nat)
    (h : (o :: t).length ≥ MaxReplayCallbacks) :
    bindReply ⟨nid, o :: t⟩ cb =
      (⟨nid + 1, t ++ [(nid, cb)]⟩, nid,
       [.withError o.2
          ("failed to receive a client reply for request (" ++
           toString o.1 ++ ")")]) := by
  have hc : ((o :: t) ++ [(nid, cb)]).length > MaxReplayCallbacks := by
    simp only [List.length_append, List.length_cons, List.length_nil,
               MaxReplayCallbacks] at h ⊢
    omega
  simp only [bindReply]
  rw [if_pos hc]
  simp only [List.cons_append]

/-- C5: `bindReply` allocates `id = NextCallID++` and appends at the
tail; below capacity nothing is evicted; at capacity the head is
evicted and its callback receives the "failed to receive a client
reply for request (id)" error exactly once; either way the registry
holds at most `MaxReplayCallbacks` entries afterwards. -/
theorem bindReply_bound (reg : OutboundRegistry) (cb : Nat)
    (hlen : reg.replyCallbacks.length ≤ MaxReplayCallbacks) :
    (bindReply reg cb).2.1 = reg.nextCallID ∧
    (bindReply reg cb).1.nextCallID = reg.nextCallID + 1 ∧
    (bindReply reg cb).1.replyCallbacks.length ≤ MaxReplayCallbacks ∧
    (reg.replyCallbacks.length < MaxReplayCallbacks →
       (bindReply reg cb).1.replyCallbacks =
         reg.replyCallbacks ++ [(reg.nextCallID, cb)] ∧
       (bindReply reg cb).2.2 = []) ∧
    (reg.replyCallbacks.length = MaxReplayCallbacks →
       ∃ o t, reg.replyCallbacks = o :: t ∧
         (bindReply reg cb).1.replyCallbacks = t ++ [(reg.nextCallID, cb)] ∧
         (bindReply reg cb).2.2 =
           [.withError o.2
              ("failed to receive a client reply for request (" ++
               toString o.1 ++ ")")]) := by
  obtain ⟨nid, l⟩ := reg
  by_cases hfull : l.length = MaxReplayCallbacks
  · cases l with
    | nil => simp [MaxReplayCallbacks] at hfull
    | cons o t =>
        rw [bindReply_evict nid o t cb hfull.ge]
        refine ⟨rfl, rfl, ?_, ?_, ?_⟩
        · simp only [List.length_cons, MaxReplayCallbacks] at hfull ⊢
          simp only [List.length_append, List.length_cons, List.length_nil]
          omega
        · intro hlt
          exact absurd hfull (Nat.ne_of_lt hlt)
        · intro _
          exact ⟨o, t, rfl, rfl, rfl⟩
  · have hlt : l.length < MaxReplayCallbacks := lt_of_le_of_ne hlen hfull
    rw [bindReply_no_evict nid l cb hlt]
    refine ⟨rfl, rfl, ?_, fun _ => ⟨rfl, rfl⟩, fun hf => absurd hf hfull⟩
    simp only [List.length_append, List.length_cons, List.length_nil,
               MaxReplayCallbacks] at hlt ⊢
    omega

/-- Witness for C5: registering into an empty registry appends
without eviction, and registering into a full registry of 100 entries
stays within the bound. -/
theorem bindReply_bound_witness :
    (bindReply ⟨0, []⟩ 5).2.1 = 0 ∧
    (bindReply ⟨0, []⟩ 5).2.2 = [] ∧
    (bindReply ⟨100, List.replicate 100 ((0 : Int), 0)⟩
        5).1.replyCallbacks.length ≤ MaxReplayCallbacks := by
  have h := bindReply_bound ⟨0, []⟩ 5 (by decide)
  have hfull := bindReply_bound ⟨100, List.replicate 100 ((0 : Int), 0)⟩ 5
    (by simp [MaxReplayCallbacks])
  exact ⟨h.1, (h.2.2.2.1 (by decide)).2, hfull.2.2.1⟩

/-- A list without the target id yields no claim. -/
theorem scanRemove_none (l : List (Int × Nat)) (i : Int)
    (h : ∀ e ∈ l, e.1 ≠ i) : scanRemove l i = none := by
  induction l with
  | nil => rfl
  | cons e rest ih =>
      obtain ⟨j, cb⟩ := e
      have hj : j ≠ i := h (j, cb) (by simp)
      simp [scanRemove, hj,
            ih (fun e he => h e (List.mem_cons_of_mem _ he))]

/-- Claiming removes exactly the first matching entry from the
head. -/
theorem scanRemove_first (pre post : List (Int × Nat)) (i : Int) (cb : Nat)
    (h : ∀ e ∈ pre, e.1 ≠ i) :
    scanRemove (pre ++ (i, cb) :: post) i = some (cb, pre ++ post) := by
  induction pre with
  | nil => simp [scanRemove]
  | cons e rest ih =>
      obtain ⟨j, c⟩ := e
      have hj : j ≠ i := h (j, c) (by simp)
      have hrest := ih (fun e he => h e (List.mem_cons_of_mem _ he))
      simp [scanRemove, hj, hrest]

/-- C6: an inbound reply with a non-integer ID, or with no matching
outbound entry, is logged and dropped with the registry unchanged;
otherwise the first matching entry from the head is removed and its
stored callback is invoked exactly once with the result-or-error. -/
theorem onReply_spec (reg : OutboundRegistry) (id : JValue)
    (result : Except String JValue) :
    (id.getAsInteger = none →
       onReply reg id result =
         (reg, [],
          ["<-- reply",
           "received a reply with ID, but there was no such call"])) ∧
    (∀ i, id.getAsInteger = some i →
       (∀ e ∈ reg.replyCallbacks, e.1 ≠ i) →
       onReply reg id result =
         (reg, [],
          ["<-- reply",
           "received a reply with ID, but there was no such call"])) ∧
    (∀ i cb pre post, id.getAsInteger = some i →
       reg.replyCallbacks = pre ++ (i, cb) :: post →
       (∀ e ∈ pre, e.1 ≠ i) →
       onReply reg id result =
         ({ reg with replyCallbacks := pre ++ post },
          [.withPayload cb result], ["<-- reply"])) := by
  refine ⟨?_, ?_, ?_⟩
  · intro h
    simp [onReply, h]
  · intro i h1 h2
    simp [onReply, h1, scanRemove_none _ _ h2]
  · intro i cb pre post h1 h2 h3
    simp [onReply, h1, h2, scanRemove_first _ _ _ _ h3]

/-- Witness for C6: the entry for id 1 is claimed out of a two-entry
registry, and a string-ID reply is dropped with the registry
unchanged. -/
theorem onReply_spec_witness :
    onReply ⟨2, [(0, 10), (1, 11)]⟩ (.num 1) (.ok .null) =
      (⟨2, [(0, 10)]⟩, [.withPayload 11 (.ok .null)], ["<-- reply"]) ∧
    onReply ⟨2, [(0, 10)]⟩ (.str "x") (.ok .null) =
      (⟨2, [(0, 10)]⟩, [],
       ["<-- reply",
        "received a reply with ID, but there was no such call"]) :=
  ⟨(onReply_spec ⟨2, [(0, 10), (1, 11)]⟩ (.num 1) (.ok .null)).2.2
     1 11 [(0, 10)] [] rfl rfl (by decide),
   (onReply_spec ⟨2, [(0, 10)]⟩ (.str "x") (.ok .null)).1 rfl⟩

/-- C8: when the typed decode of the raw params fails, the bound call
handler never runs its body and replies
`InvalidRequest("failed to decode request")` through the Reply-Once
handle; the bound notification handler never runs its body and drops
the notification after a log entry. -/
theorem bound_decode_failure {P A B : Type} (decode : JValue → Option P)
    (body : P → ReplyOnce → A) (nbody : P → B) (raw : JValue)
    (reply : ReplyOnce) (hdec : decode raw = none)
    (hrep : reply.replied = false) :
    boundCallHandler decode body raw reply =
      .error
        ([.replyErr reply.id ⟨"failed to decode request", .invalidRequest⟩],
         ["Failed to decode request",
          "--> reply error:" ++ reply.method]) ∧
    boundNotifHandler decode nbody raw =
      .error ["Failed to decode request"] := by
  constructor
  · simp [boundCallHandler, hdec, ReplyOnce.callFrames, ReplyOnce.callLogs,
          ReplyOnce.call, hrep]
  · simp [boundNotifHandler, hdec]

/-- Witness for C8 with a decoder that rejects everything and concrete
bodies, showing neither body's output appears. -/
theorem bound_decode_failure_witness :
    boundCallHandler (P := Unit) (A := Unit) (fun _ => none) (fun _ _ => ())
        .null (ReplyOnce.mk' (.num 3) "test/m") =
      .error
        ([.replyErr (.num 3) ⟨"failed to decode request", .invalidRequest⟩],
         ["Failed to decode request", "--> reply error:" ++ "test/m"]) ∧
    boundNotifHandler (P := Unit) (A := Unit) (fun _ => none) (fun _ => ())
        .null = .error ["Failed to decode request"] :=
  bound_decode_failure (fun _ => none) (fun _ _ => ()) (fun _ => ())
    .null (ReplyOnce.mk' (.num 3) "test/m") rfl rfl

/-- The pre-check option recording of `onInitialize` does not touch
the server presence or the construction counters. -/
theorem recordInitOptions_fields (s : ServerState) (p : InitializeParams) :
    (recordInitOptions s p).serverPresent = s.serverPresent ∧
    (recordInitOptions s p).cdbGeneration = s.cdbGeneration ∧
    (recordInitOptions s p).serverGeneration = s.serverGeneration := by
  refine ⟨?_, ?_, ?_⟩ <;> simp only [recordInitOptions] <;>
    (repeat' split) <;> rfl

/-- C9: an `initialize` call arriving when the server is already
constructed is answered with `InvalidRequest("server already
initialized")`, and neither the compilation database nor the
`ClangdServer` is reconstructed. -/
theorem onInitialize_already_initialized (s : ServerState)
    (p : InitializeParams) (h : s.serverPresent = true) :
    (onInitialize s p).2 =
      .error ⟨"server already initialized", .invalidRequest⟩ ∧
    (onInitialize s p).1.cdbGeneration = s.cdbGeneration ∧
    (onInitialize s p).1.serverGeneration = s.serverGeneration ∧
    (onInitialize s p).1.serverPresent = true := by
  have hf := recordInitOptions_fields s p
  have hsp : (recordInitOptions s p).serverPresent = true := by rw [hf.1, h]
  refine ⟨?_, ?_, ?_, ?_⟩ <;> simp [onInitialize, hsp, hf.2.1, hf.2.2]

/-- Witness for C9: a second `initialize` against an
already-constructed server with generation counters at 1. -/
theorem onInitialize_already_initialized_witness :
    (onInitialize ⟨none, false, none, none, true, 1, 1⟩
        ⟨none, false, none, none, none⟩).2 =
      .error ⟨"server already initialized", .invalidRequest⟩ ∧
    (onInitialize ⟨none, false, none, none, true, 1, 1⟩
        ⟨none, false, none, none, none⟩).1.cdbGeneration = 1 ∧
    (onInitialize ⟨none, false, none, none, true, 1, 1⟩
        ⟨none, false, none, none, none⟩).1.serverGeneration = 1 ∧
    (onInitialize ⟨none, false, none, none, true, 1, 1⟩
        ⟨none, false, none, none, none⟩).1.serverPresent = true :=
  onInitialize_already_initialized ⟨none, false, none, none, true, 1, 1⟩
    ⟨none, false, none, none, none⟩ rfl

end Clangd
